import Mathlib

/-!
Verification of the `fairyfly-therm` geometry-to-document translator and
property codec against its natural-language specification.

The definitions below are a shallow embedding of the Python sources:

* `src/fairyfly_therm/writer.py` — the document translator
  (`model_to_therm_xml` element builder, the string builder and
  `model_to_thmz`).
* `src/fairyfly_therm/simulation/exposure.py` — the `ModelExposure`
  value object and its XML codec.
* the lockable value objects exercised by `src/tests/material_solid_test.py`
  and `src/tests/condition_comprehensive_test.py`.

Machine floats are modelled as rationals, XML elements as records of the
attributes/children the code reads and writes, Python exceptions as
`Except` errors, and host-library (honeybee / ladybug) geometry services as
explicit function parameters or contracts, since the core only consumes
their results.
-/

/-! ## Data model for the document translator (writer.py) -/

/-- Face roles from the host model (`honeybee.facetype`): the translator
rewrites these at writer.py:130-137. -/
inductive FaceType
  | wall
  | roof_ceiling
  | floor
  | air_boundary
  deriving DecidableEq, Repr

/-- A face of the model as the translator consumes it: its identifier, the
angle in degrees between its outward normal and the vertical axis
(`math.degrees(z_axis.angle(face.normal))`, writer.py:131-133, supplied by
the host geometry library), and its current type. -/
structure Face where
  identifier : String
  angle_to_vertical : ℚ
  type : FaceType
  deriving DecidableEq, Repr

/-- A room: an identifier and its faces. -/
structure Room where
  identifier : String
  faces : List Face
  deriving DecidableEq, Repr

/-- A shade: an identifier. -/
structure Shade where
  identifier : String
  deriving DecidableEq, Repr

/-- The slice of a honeybee Model the translator reads and mutates:
its unit system, rooms and shades. -/
structure Model where
  units : String
  rooms : List Room
  shades : List Shade
  deriving DecidableEq, Repr

/-! ## Step 5: face reclassification (writer.py:130-137) -/

/-- One face's reclassification, from writer.py:132-137:
`angle = math.degrees(z_axis.angle(face.normal))`; if `angle < 60` the type
becomes roof/ceiling, elif `angle >= 130` it becomes floor, and otherwise
the face is left untouched. -/
def reclassify_face (f : Face) : Face :=
  if f.angle_to_vertical < 60 then { f with type := FaceType.roof_ceiling }
  else if 130 ≤ f.angle_to_vertical then { f with type := FaceType.floor }
  else f

/-- The loop `for face in model.faces:` at writer.py:132 applies
`reclassify_face` to every face of the model. -/
def reclassify_faces (faces : List Face) : List Face :=
  faces.map reclassify_face

/-- Reclassification applied to the whole model, room by room. -/
def reclassify_model (m : Model) : Model :=
  { m with rooms := m.rooms.map (fun r => { r with faces := reclassify_faces r.faces }) }

/-! ## Step 2: unit normalization (writer.py:114-116) -/

/-- `if model.units != 'Meters': model.convert_to_units('Meters')`
(writer.py:115-116).  The geometric scaling itself is a host-library
service; the attribute the translator observes afterwards is the unit
system. -/
def convert_to_meters (m : Model) : Model :=
  if m.units = "Meters" then m else { m with units := "Meters" }

/-! ## Step 3: degenerate-geometry removal (writer.py:117-123) -/

/-- The fixed tolerance passed to `model.remove_degenerate_geometry` at
writer.py:119. -/
def DESIGNBUILDER_TOLERANCE : ℚ := 1 / 100

/-- The error message built at writer.py:121-122 when degenerate-geometry
removal fails:
`'Failed to remove degenerate Rooms.\nYour Model units system is: {}. '
'Is this correct?'.format(original_model.units)`. -/
def degenerate_error_message (units : String) : String :=
  "Failed to remove degenerate Rooms.\nYour Model units system is: " ++
    units ++ ". Is this correct?"

/-- The try/except around `model.remove_degenerate_geometry(0.01)` at
writer.py:118-123.  The host-library cleanup call is passed in as a
function from the tolerance to `some cleaned_model` (success) or `none`
(the `ValueError` the method raises on failure); on failure the translator
raises `ValueError(degenerate_error_message original_units)`, aborting the
translation with no partial document. -/
def remove_degenerate_step (remove_degenerate_geometry : ℚ → Option Model)
    (original_units : String) : Except String Model :=
  match remove_degenerate_geometry DESIGNBUILDER_TOLERANCE with
  | some cleaned => Except.ok cleaned
  | none => Except.error (degenerate_error_message original_units)

/-! ## Step 6: grouping rooms into blocks (writer.py:154-165) -/

/-- The block-grouping loop at writer.py:155-165, translated over the list
`zip(story_rooms, story_names)` produced by the host-library call
`Room.group_by_story(model.rooms)`.  `group_by_adjacency` is the
host-library service `Room.group_by_adjacency`.  For each story: if the
adjacency grouping returns exactly one group, the whole story's room list
is appended under the story name; otherwise each group is appended under
`'{} {}'.format(flr_name, i + 1)`. -/
def group_rooms_to_blocks (group_by_adjacency : List α → List (List α)) :
    List (List α × String) → List (List α) × List String
  | [] => ([], [])
  | (flr_rooms, flr_name) :: rest =>
    let acc := group_rooms_to_blocks group_by_adjacency rest
    let adj_rooms := group_by_adjacency flr_rooms
    if adj_rooms.length = 1 then
      (flr_rooms :: acc.1, flr_name :: acc.2)
    else
      (adj_rooms ++ acc.1,
        (adj_rooms.enum.map (fun p => flr_name ++ " " ++ toString (p.1 + 1))) ++ acc.2)

/-- The claim's wording of step 6, for comparison with the source
translation `group_rooms_to_blocks`: each story contributes its blocks in
discovery order; a story with exactly one connected group contributes one
block carrying the story name; a story with N > 1 groups contributes the
group at 0-based index i under the name `story ++ " " ++ toString (i+1)`. -/
def block_naming_spec (group_by_adjacency : List α → List (List α))
    (flr_rooms : List α) (flr_name : String) : List (List α × String) :=
  let adj_rooms := group_by_adjacency flr_rooms
  if adj_rooms.length = 1 then [(flr_rooms, flr_name)]
  else adj_rooms.enum.map (fun p => (p.2, flr_name ++ " " ++ toString (p.1 + 1)))

/-! ## Step 7: integer handle assignment (writer.py:167-171) -/

/-- Modelled from the spec: the host-library method
`Model.reset_ids_to_integers(start_integer)` called at writer.py:170 is not
under src/; §4.5 step 7 describes it as re-assigning every room/face/shade
identifier in the model to a small integer drawn from a monotonically
increasing counter starting at `start_integer`.  Here each face of a room
is renumbered after the room itself, the shades after all rooms, and the
counter value after the last assignment is returned, mirroring that the
Python call returns the updated counter. -/
def assign_face_ids : List Face → ℕ → List Face × ℕ
  | [], counter => ([], counter)
  | f :: rest, counter =>
    let acc := assign_face_ids rest (counter + 1)
    ({ f with identifier := toString counter } :: acc.1, acc.2)

/-- Room renumbering for `reset_ids_to_integers`: each room receives the
next counter value, then its faces, then the remaining rooms. -/
def assign_room_ids : List Room → ℕ → List Room × ℕ
  | [], counter => ([], counter)
  | r :: rest, counter =>
    let fs := assign_face_ids r.faces (counter + 1)
    let acc := assign_room_ids rest fs.2
    ({ r with identifier := toString counter, faces := fs.1 } :: acc.1, acc.2)

/-- Shade renumbering for `reset_ids_to_integers`. -/
def assign_shade_ids : List Shade → ℕ → List Shade × ℕ
  | [], counter => ([], counter)
  | s :: rest, counter =>
    let acc := assign_shade_ids rest (counter + 1)
    ({ s with identifier := toString counter } :: acc.1, acc.2)

/-- Modelled from the spec: `Model.reset_ids_to_integers` (host library,
not under src/) — renumbers rooms (with their faces) and then shades from
`start_integer`, returning the renumbered model and the counter after the
last assignment. -/
def reset_ids_to_integers (m : Model) (start_integer : ℕ) : Model × ℕ :=
  let rooms := assign_room_ids m.rooms start_integer
  let shades := assign_shade_ids m.shades rooms.2
  ({ m with rooms := rooms.1, shades := shades.1 }, shades.2)

/-- writer.py:167-171: `HANDLE_COUNTER = len(block_rooms) + 2`, then
`HANDLE_COUNTER = model.reset_ids_to_integers(start_integer=HANDLE_COUNTER)`,
then `HANDLE_COUNTER += 1`.  Returns the renumbered model and the final
counter value. -/
def assign_handles (m : Model) (n_blocks : ℕ) : Model × ℕ :=
  let handle_counter := n_blocks + 2
  let res := reset_ids_to_integers m handle_counter
  (res.1, res.2 + 1)

/-- All room, face and shade identifiers of a model, in renumbering
order. -/
def model_ids (m : Model) : List String :=
  (m.rooms.map (fun r => r.identifier :: r.faces.map Face.identifier)).flatten ++
    m.shades.map Shade.identifier

/-- The number of rooms, faces and shades of a model. -/
def model_id_count (m : Model) : ℕ :=
  m.rooms.length + (m.rooms.map (fun r => r.faces.length)).sum + m.shades.length

/-! ## Step 9: adjacency remap (writer.py:184-201) -/

/-- The `ObjectIDs` element of an emitted surface adjacency: the two
attributes the remap pass at writer.py:185-200 reads and writes. -/
structure XmlAdjacency where
  surfaceIndex : String
  zoneHandle : String
  deriving DecidableEq, Repr

/-- An emitted surface: its `Adjacencies` children. -/
structure XmlSurface where
  adjacencies : List XmlAdjacency
  deriving DecidableEq, Repr

/-- An emitted zone: the surfaces under its `Body`. -/
structure XmlZone where
  surfaces : List XmlSurface
  deriving DecidableEq, Repr

/-- An emitted building block: its `Zones` children. -/
structure XmlBlock where
  zones : List XmlZone
  deriving DecidableEq, Repr

/-- The innermost body of the remap loop, writer.py:192-200: read the
`surfaceIndex` attribute; if it is not `'-1'`, try to substitute
`f_index_map[xml_adj_face_id]`; on `KeyError` (identifier absent from the
map) set both `surfaceIndex` and `zoneHandle` to `'-1'`.  The caught
`KeyError` is why this is a total function rather than an `Except`: an
unresolved reference never propagates an exception. -/
def remap_adjacency (f_index_map : List (String × String))
    (adj : XmlAdjacency) : XmlAdjacency :=
  if adj.surfaceIndex = "-1" then adj
  else
    match f_index_map.lookup adj.surfaceIndex with
    | some face_i => { adj with surfaceIndex := face_i }
    | none => { adj with surfaceIndex := "-1", zoneHandle := "-1" }

/-- The loop `for xml_adj in xml_adjs:` over one surface. -/
def remap_surface (f_index_map : List (String × String)) (s : XmlSurface) :
    XmlSurface :=
  ⟨s.adjacencies.map (remap_adjacency f_index_map)⟩

/-- The loop over the surfaces of one zone's body. -/
def remap_zone (f_index_map : List (String × String)) (z : XmlZone) : XmlZone :=
  ⟨z.surfaces.map (remap_surface f_index_map)⟩

/-- The loop over the zones of one block. -/
def remap_block (f_index_map : List (String × String)) (b : XmlBlock) : XmlBlock :=
  ⟨b.zones.map (remap_zone f_index_map)⟩

/-- The whole remap pass, writer.py:185-200: every adjacency of every
surface of every zone of every block is rewritten. -/
def remap_document (f_index_map : List (String × String))
    (blocks : List XmlBlock) : List XmlBlock :=
  blocks.map (remap_block f_index_map)

/-- All adjacencies of an emitted document, in document order. -/
def all_adjacencies (blocks : List XmlBlock) : List XmlAdjacency :=
  blocks.flatMap
    (fun b => b.zones.flatMap (fun z => z.surfaces.flatMap XmlSurface.adjacencies))

/-! ## Step 1: isolation of the caller's model (writer.py:110-116)

Python objects are mutated through references, so the duplicate-then-mutate
discipline of writer.py:112-113 is modelled over an explicit heap of model
objects: `model = model.duplicate()` copies the model stored at the
caller's address into a fresh address, and every subsequent in-place step
of the pipeline writes only to that fresh address. -/

/-- The in-place model mutations the translator performs on its duplicate:
step 2 unit conversion (writer.py:115-116), step 5 face reclassification
(writer.py:130-137) and step 7 identifier reassignment (writer.py:167-171),
with the host-library grouping services passed in for the block count of
step 6 (writer.py:154-168). -/
def translator_work (group_by_adjacency : List Room → List (List Room))
    (group_by_story : Model → List (List Room × String)) (m : Model) : Model :=
  let m := convert_to_meters m
  let m := reclassify_model m
  let blocks := group_rooms_to_blocks group_by_adjacency (group_by_story m)
  (assign_handles m blocks.1.length).1

/-- The heap semantics of `model_to_therm_xml` for the caller's model,
writer.py:110-171: the model at address `orig` is duplicated into the
fresh address `fresh`, and all in-place pipeline mutations are applied at
`fresh` only. -/
def model_to_therm_xml_heap (group_by_adjacency : List Room → List (List Room))
    (group_by_story : Model → List (List Room × String))
    (heap : ℕ → Model) (orig fresh : ℕ) : ℕ → Model :=
  fun addr =>
    if addr = fresh then translator_work group_by_adjacency group_by_story (heap orig)
    else heap addr

/-! ## The serialized string and its byte encoding (writer.py:267-282, 316-319) -/

/-- The XML declaration prepended at writer.py:278-280. -/
def XML_DECLARATION : String :=
  "<?xml version=\"1.0\" encoding=\"ISO-8859-15\" standalone=\"yes\"?>"

/-- The string builder `model_to_therm_xml` at writer.py:267-282 (the
second definition of that name, which shadows the element builder): the
serialized element tree `body` is prefixed with the fixed declaration, a
newline, and — when `program_name` is given — an authoring comment. -/
def model_to_therm_xml (body : String) (program_name : Option String) : String :=
  let prog_comment :=
    match program_name with
    | some p => "<!--File generated by " ++ p ++ "-->\n"
    | none => ""
  let base_template := XML_DECLARATION ++ "\n" ++ prog_comment
  base_template ++ body

/-- One character of the ISO-8859-15 codec (the Latin-9 single-byte
charset): the eight code points Latin-9 replaces relative to Latin-1 map
the new characters (€ Š š Ž ž Œ œ Ÿ) to the freed bytes, every other
character up to U+00FF maps to its own code point, and anything else is
unencodable. -/
def iso_8859_15_encode_char (c : Char) : Option ℕ :=
  if c = '€' then some 164
  else if c = 'Š' then some 166
  else if c = 'š' then some 168
  else if c = 'Ž' then some 180
  else if c = 'ž' then some 184
  else if c = 'Œ' then some 188
  else if c = 'œ' then some 189
  else if c = 'Ÿ' then some 190
  else if c.toNat = 164 ∨ c.toNat = 166 ∨ c.toNat = 168 ∨ c.toNat = 180 ∨
      c.toNat = 184 ∨ c.toNat = 188 ∨ c.toNat = 189 ∨ c.toNat = 190 then none
  else if c.toNat ≤ 255 then some c.toNat
  else none

/-- `s.encode('iso-8859-15')`: the byte sequence of a string under the
ISO-8859-15 codec, or `none` if some character is unencodable. -/
def iso_8859_15_encode (s : String) : Option (List ℕ) :=
  s.data.mapM iso_8859_15_encode_char

/-- The bytes `model_to_thmz` writes to the output file, writer.py:316-319:
`xml_str = model_to_therm_xml(model, xml_template, program_name)` followed
by `fp.write(xml_str.encode('iso-8859-15'))`. -/
def model_to_thmz (body : String) (program_name : Option String) :
    Option (List ℕ) :=
  iso_8859_15_encode (model_to_therm_xml body program_name)

/-! ## ModelExposure (simulation/exposure.py) -/

/-- `ModelExposure.MODEL_TYPES` (exposure.py:79). -/
def MODEL_TYPES : List String := ["Window", "Opaque Wall", "Opaque Roof", "Other"]

/-- `ModelExposure.WINDOW_SECTIONS` (exposure.py:80-83). -/
def WINDOW_SECTIONS : List String :=
  ["Sill", "Jamb", "Head", "Horizontal Divider", "Vertical Divider",
   "Horizontal Meeting Rail", "Vertical Meeting Rail", "Common Frame", "Spacer"]

/-- `ModelExposure.OPAQUE_SECTIONS` (exposure.py:84-87). -/
def OPAQUE_SECTIONS : List String :=
  ["Sill Plate", "Header", "End Section", "Middle Section", "Thermal Bridge",
   "Window Framing - Sill", "Rough Opening - Header", "Rough Opening - Jamb"]

/-- `ModelExposure.OTHER_SECTIONS` (exposure.py:88-90). -/
def OTHER_SECTIONS : List String :=
  ["General Cross Section", "Common Thermal Bridge"]

/-- `ModelExposure.ALL_SECTIONS` (exposure.py:91). -/
def ALL_SECTIONS : List String := WINDOW_SECTIONS ++ OPAQUE_SECTIONS ++ OTHER_SECTIONS

/-- `ModelExposure.GRAVITY_ORIENTATIONS` (exposure.py:92-94). -/
def GRAVITY_ORIENTATIONS : List String :=
  ["Down", "Up", "Left", "Right", "Into Screen", "Out Of Screen"]

/-- `ModelExposure.SECTION_MAP` (exposure.py:95-100): the default cross
section for each model type. -/
def SECTION_MAP : List (String × String) :=
  [("Window", "Sill"), ("Opaque Wall", "Sill Plate"),
   ("Opaque Roof", "Sill Plate"), ("Other", "General Cross Section")]

/-- The `__slots__` state of a `ModelExposure` (exposure.py:77-78): the
private fields behind the four properties.  The wind orientation is kept
as a rational standing for the Python float. -/
structure ModelExposure where
  _model_type : String
  _cross_section_type : Option String
  _gravity_orientation : Option String
  _wind_orientation : ℚ
  deriving DecidableEq, Repr

/-- Python's `str.lower()`: lowercase every character.  (Stated over the
character list so that it reduces structurally.) -/
def lowerStr (s : String) : String :=
  ⟨s.data.map Char.toLower⟩

/-- The case-insensitive key canonicalization loop shared by the setters
(e.g. exposure.py:121-125): lowercase the input and return the first key
whose lowercase form matches, if any. -/
def matchKey (keys : List String) (value : String) : Option String :=
  keys.find? (fun k => lowerStr k == lowerStr value)

/-- The `cross_section_type` property (exposure.py:137-140): the explicit
value when one was set, else the `SECTION_MAP` default for the current
model type.  (The `getD ""` arm models the `KeyError` that cannot occur
because every reachable `_model_type` is a `SECTION_MAP` key.) -/
def cross_section_type (x : ModelExposure) : String :=
  match x._cross_section_type with
  | some c => c
  | none => (SECTION_MAP.lookup x._model_type).getD ""

/-- The message of the `ValueError` raised by the `model_type` setter
(exposure.py:127-130). -/
def model_type_error_msg (v : String) : String :=
  "ModelExposure model_type \"" ++ v ++ "\" is not supported.\n" ++
    "Choose from the following:\n" ++ String.intercalate "\n" MODEL_TYPES

/-- The message of the `ValueError` raised by the `cross_section_type`
setter (exposure.py:151-154). -/
def cross_section_error_msg (v : String) : String :=
  "ModelExposure cross_section_type \"" ++ v ++ "\" is not supported.\n" ++
    "Choose from the following:\n" ++ String.intercalate "\n" ALL_SECTIONS

/-- The message of the `ValueError` raised by the `gravity_orientation`
setter (exposure.py:172-175). -/
def gravity_error_msg (v : String) : String :=
  "ModelExposure gravity_orientation \"" ++ v ++ "\" is not supported.\n" ++
    "Choose from the following:\n" ++ String.intercalate "\n" GRAVITY_ORIENTATIONS

/-- The message of the incompatibility `AssertionError` raised by
`_check_model_and_cross_section` (exposure.py:192-194). -/
def incompatible_section_msg (x : ModelExposure) (choices : List String) : String :=
  "Cross section type \"" ++ cross_section_type x ++
    "\" is not supported for model type \"" ++ x._model_type ++ "\"." ++
    "\nChoose from the following:\n" ++ String.intercalate "\n" choices

/-- The branch structure of `_check_model_and_cross_section`
(exposure.py:198-206): `'Other'` is checked against `OTHER_SECTIONS`,
`'Window'` against `WINDOW_SECTIONS`, and everything else (the two opaque
types for reachable states) against `OPAQUE_SECTIONS`. -/
def check_sections (model_type : String) : List String :=
  if model_type = "Other" then OTHER_SECTIONS
  else if model_type = "Window" then WINDOW_SECTIONS
  else OPAQUE_SECTIONS

/-- `ModelExposure._check_model_and_cross_section` (exposure.py:189-206):
asserts that the effective cross section belongs to the section list of
the current model type, raising `AssertionError` otherwise.  (The
`if self.cross_section_type is None: return` guard at exposure.py:196-197
is dead — the property never yields `None` — and is subsumed by the
property's total modelling here.)  Returns the unchanged object on success
so the setters can be written as a pipeline. -/
def check_model_and_cross_section (x : ModelExposure) :
    Except String ModelExposure :=
  let choices := check_sections x._model_type
  if choices.contains (cross_section_type x) then Except.ok x
  else Except.error (incompatible_section_msg x choices)

/-- The `model_type` setter (exposure.py:118-134): canonicalize against
`MODEL_TYPES` (raising `ValueError` on an unknown value), default `None`
to `'Other'`, store, and run the compatibility check. -/
def set_model_type (x : ModelExposure) (value : Option String) :
    Except String ModelExposure :=
  match value with
  | some v =>
    match matchKey MODEL_TYPES v with
    | some key => check_model_and_cross_section { x with _model_type := key }
    | none => Except.error (model_type_error_msg v)
  | none => check_model_and_cross_section { x with _model_type := "Other" }

/-- The `cross_section_type` setter (exposure.py:142-156): canonicalize
against `ALL_SECTIONS` (raising `ValueError` on an unknown value), store
(possibly `None`), and run the compatibility check. -/
def set_cross_section_type (x : ModelExposure) (value : Option String) :
    Except String ModelExposure :=
  match value with
  | some v =>
    match matchKey ALL_SECTIONS v with
    | some key => check_model_and_cross_section { x with _cross_section_type := some key }
    | none => Except.error (cross_section_error_msg v)
  | none => check_model_and_cross_section { x with _cross_section_type := none }

/-- The `gravity_orientation` setter (exposure.py:163-176). -/
def set_gravity_orientation (x : ModelExposure) (value : Option String) :
    Except String ModelExposure :=
  match value with
  | some v =>
    match matchKey GRAVITY_ORIENTATIONS v with
    | some key => Except.ok { x with _gravity_orientation := some key }
    | none => Except.error (gravity_error_msg v)
  | none => Except.ok { x with _gravity_orientation := none }

/-- Modelled from the spec: `fairyfly.typing.float_in_range` (host library,
not under src/) — returns the value when it lies within the inclusive
range and raises otherwise. -/
def float_in_range (value lo hi : ℚ) (name : String) : Except String ℚ :=
  if lo ≤ value ∧ value ≤ hi then Except.ok value
  else Except.error (name ++ " must be between the allowed range.")

/-- The `wind_orientation` setter (exposure.py:184-187):
`float_in_range(value, 0, 360, 'ModelExposure wind orientation')`. -/
def set_wind_orientation (x : ModelExposure) (value : ℚ) :
    Except String ModelExposure :=
  (float_in_range value 0 360 "ModelExposure wind orientation").map
    (fun w => { x with _wind_orientation := w })

/-- `ModelExposure.__init__` (exposure.py:102-111): start from the
placeholder state with no cross section or gravity orientation set, then
run the four property setters in order. -/
def ModelExposure.init (model_type cross_section_type gravity_orientation :
    Option String) (wind_orientation : ℚ) : Except String ModelExposure := do
  let x : ModelExposure := ⟨"", none, none, 0⟩
  let x ← set_model_type x model_type
  let x ← set_cross_section_type x cross_section_type
  let x ← set_gravity_orientation x gravity_orientation
  set_wind_orientation x wind_orientation

/-! ## The ModelExposure XML codec (exposure.py:208-331) -/

/-- The XML element written by `ModelExposure.to_therm_xml` and read back
by `from_therm_xml`: the children's text contents.  The wind orientation
channel (`ModelOrientation`) is kept as the rational it prints and parses
back to, since Python's float-to-string round trip is exact. -/
structure EncodedExposure where
  modelOrientation : ℚ
  gravityOrientation : String
  modelPurpose : String
  assembly : Option String
  windowCrossSection : Option String
  opaqueCrossSection : Option String
  otherCrossSection : Option String
  deriving DecidableEq, Repr

/-- `ModelExposure.to_therm_xml` (exposure.py:269-331) with no
`properties_element` and no `model_plane`: an unset gravity orientation
serializes as `'Down'`; the model purpose, `Assembly` child and the
cross-section child depend on the model type — `'Window'` writes
`Window/Transparent Facade` with a `WindowCrossSection`, the two opaque
types write `Opaque Facade` with `Assembly` text `'Walls'` or `'Roof'` and
an `OpaqueCrossSection`, and anything else writes the model type itself
with an `OtherCrossSection`. -/
def to_therm_xml (x : ModelExposure) : EncodedExposure :=
  let grav :=
    match x._gravity_orientation with
    | none => "Down"
    | some g => g
  if x._model_type = "Window" then
    { modelOrientation := x._wind_orientation, gravityOrientation := grav,
      modelPurpose := "Window/Transparent Facade", assembly := none,
      windowCrossSection := some (cross_section_type x),
      opaqueCrossSection := none, otherCrossSection := none }
  else if x._model_type = "Opaque Wall" then
    { modelOrientation := x._wind_orientation, gravityOrientation := grav,
      modelPurpose := "Opaque Facade", assembly := some "Walls",
      windowCrossSection := none,
      opaqueCrossSection := some (cross_section_type x), otherCrossSection := none }
  else if x._model_type = "Opaque Roof" then
    { modelOrientation := x._wind_orientation, gravityOrientation := grav,
      modelPurpose := "Opaque Facade", assembly := some "Roof",
      windowCrossSection := none,
      opaqueCrossSection := some (cross_section_type x), otherCrossSection := none }
  else
    { modelOrientation := x._wind_orientation, gravityOrientation := grav,
      modelPurpose := x._model_type, assembly := none, windowCrossSection := none,
      opaqueCrossSection := none, otherCrossSection := some (cross_section_type x) }

/-- `ModelExposure.from_therm_xml` (exposure.py:208-229): dispatch on the
`ModelPurpose` text — `'Other'` reads `OtherCrossSection`,
`'Window/Transparent Facade'` reads `WindowCrossSection`, and any other
purpose rebuilds the model type as `'Opaque ' + Assembly` and reads
`OpaqueCrossSection` — then rebuilds the object through the validating
constructor.  A missing child makes `element.find(...)` return `None` and
the subsequent `.text` raise `AttributeError`. -/
def from_therm_xml (e : EncodedExposure) : Except String ModelExposure :=
  if e.modelPurpose = "Other" then
    match e.otherCrossSection with
    | some cross_type =>
      ModelExposure.init (some "Other") (some cross_type)
        (some e.gravityOrientation) e.modelOrientation
    | none => Except.error "AttributeError: missing OtherCrossSection"
  else if e.modelPurpose = "Window/Transparent Facade" then
    match e.windowCrossSection with
    | some cross_type =>
      ModelExposure.init (some "Window") (some cross_type)
        (some e.gravityOrientation) e.modelOrientation
    | none => Except.error "AttributeError: missing WindowCrossSection"
  else
    match e.assembly, e.opaqueCrossSection with
    | some asm, some cross_type =>
      ModelExposure.init (some ("Opaque " ++ asm)) (some cross_type)
        (some e.gravityOrientation) e.modelOrientation
    | _, _ => Except.error "AttributeError: missing Assembly or OpaqueCrossSection"

/-! ## Lockable value objects (material_solid_test.py, condition_comprehensive_test.py)

Modelled from the spec: the `SolidMaterial` and `ComprehensiveCondition`
classes (`fairyfly_therm.material.solid`,
`fairyfly_therm.condition.comprehensive`) are not under src/ — only their
tests and callers are.  §3/§9 describe the shared lock/unlock lifecycle
and §7 the distinct immutable-state error on locked mutation (surfaced as
`AttributeError` in the repository's tests); §4.2 describes mutators that
re-validate on every change and fail fast without clamping. -/

/-- The error kinds a lockable value object's mutators raise: the distinct
immutable-state error of §7 (`AttributeError` in the tests) or a
validation error naming the violated bound. -/
inductive MutationError
  | immutableState
  | validation (msg : String)
  deriving DecidableEq, Repr

/-- Modelled from the spec: the lockable `SolidMaterial` value object —
its lock flag and the mutable physical fields exercised by
`test_material_lockability` (conductivity > 0, density ≥ 0 optional). -/
structure SolidMaterial where
  locked : Bool
  conductivity : ℚ
  density : Option ℚ
  deriving DecidableEq, Repr

/-- `SolidMaterial.lock()`: once locked, any mutator fails. -/
def SolidMaterial.lock (m : SolidMaterial) : SolidMaterial :=
  { m with locked := true }

/-- `SolidMaterial.unlock()`: mutation succeeds again. -/
def SolidMaterial.unlock (m : SolidMaterial) : SolidMaterial :=
  { m with locked := false }

/-- Modelled from the spec: the `density` mutator — on a locked object it
fails with the immutable-state error leaving the object unchanged; on an
unlocked object it validates `density ≥ 0` and stores the value. -/
def SolidMaterial.set_density (m : SolidMaterial) (value : ℚ) :
    Except MutationError SolidMaterial :=
  if m.locked then Except.error MutationError.immutableState
  else if 0 ≤ value then Except.ok { m with density := some value }
  else Except.error (MutationError.validation "density must be greater than or equal to 0")

/-- Modelled from the spec: the `conductivity` mutator — locked objects
fail with the immutable-state error; unlocked objects validate
`conductivity > 0`. -/
def SolidMaterial.set_conductivity (m : SolidMaterial) (value : ℚ) :
    Except MutationError SolidMaterial :=
  if m.locked then Except.error MutationError.immutableState
  else if 0 < value then Except.ok { m with conductivity := value }
  else Except.error (MutationError.validation "conductivity must be greater than 0")

/-- Modelled from the spec: the lockable `ComprehensiveCondition` boundary
condition — its lock flag and the `temperature` field exercised by
`test_condition_lockability`. -/
structure ComprehensiveCondition where
  locked : Bool
  temperature : ℚ
  deriving DecidableEq, Repr

/-- `ComprehensiveCondition.lock()`. -/
def ComprehensiveCondition.lock (c : ComprehensiveCondition) :
    ComprehensiveCondition :=
  { c with locked := true }

/-- `ComprehensiveCondition.unlock()`. -/
def ComprehensiveCondition.unlock (c : ComprehensiveCondition) :
    ComprehensiveCondition :=
  { c with locked := false }

/-- Modelled from the spec: the `temperature` mutator — locked objects
fail with the immutable-state error; unlocked objects store the value. -/
def ComprehensiveCondition.set_temperature (c : ComprehensiveCondition)
    (value : ℚ) : Except MutationError ComprehensiveCondition :=
  if c.locked then Except.error MutationError.immutableState
  else Except.ok { c with temperature := value }

/-! ## Theorems -/

/-- C3: during translation every face is reclassified by the angle between
its outward normal and the vertical axis — strictly below 60 degrees the
type becomes roof/ceiling, at or above 130 degrees it becomes floor, and
otherwise the prior type is left unchanged — and the rule is applied
uniformly to all faces regardless of any previously assigned role. -/
theorem reclassify_faces_by_angle (faces : List Face) :
    reclassify_faces faces = faces.map reclassify_face ∧
    ∀ f ∈ faces,
      (f.angle_to_vertical < 60 →
        (reclassify_face f).type = FaceType.roof_ceiling) ∧
      (130 ≤ f.angle_to_vertical → (reclassify_face f).type = FaceType.floor) ∧
      (60 ≤ f.angle_to_vertical → f.angle_to_vertical < 130 →
        reclassify_face f = f) := by
  refine ⟨rfl, fun f _ => ⟨?_, ?_, ?_⟩⟩
  · intro h
    simp [reclassify_face, h]
  · intro h
    have h60 : ¬ f.angle_to_vertical < 60 := by linarith
    simp [reclassify_face, h60, h]
  · intro h1 h2
    have h60 : ¬ f.angle_to_vertical < 60 := by linarith
    have h130 : ¬ 130 ≤ f.angle_to_vertical := by linarith
    simp [reclassify_face, h60, h130]

/-- Witness for C3 at a concrete 45-degree wall face. -/
theorem reclassify_faces_by_angle_witness :
    ((⟨"f1", 45, FaceType.wall⟩ : Face) ∈ [(⟨"f1", 45, FaceType.wall⟩ : Face)]) ∧
    (45 : ℚ) < 60 ∧
    (reclassify_face ⟨"f1", 45, FaceType.wall⟩).type = FaceType.roof_ceiling :=
  ⟨List.mem_singleton.mpr rfl, by norm_num,
    ((reclassify_faces_by_angle [⟨"f1", 45, FaceType.wall⟩]).2 _
      (List.mem_singleton.mpr rfl)).1 (by norm_num)⟩

set_option maxRecDepth 4000 in
/-- C6 counterexample: the error raised when degenerate-geometry removal
fails does not name the offending tolerance — the string `"0.01"` does not
occur in the message the translator raises for a metric model — so the
claim that the message names both the tolerance and the unit system is
false. -/
theorem degenerate_error_omits_tolerance :
    remove_degenerate_step (fun _ => none) "Meters" =
      Except.error (degenerate_error_message "Meters") ∧
    ¬ ("0.01".data <:+: (degenerate_error_message "Meters").data) :=
  ⟨rfl, by decide⟩

/-- C6 amended: if removing degenerate geometry at the fixed tolerance 0.01
fails during translation, the translator raises an error whose message
names the model's unit system and recommends that the caller double-check
the model's declared units (but does not name the tolerance), and the whole
translation aborts with no partial document returned. -/
theorem remove_degenerate_failure_aborts (remove_degenerate_geometry : ℚ → Option Model)
    (units : String) (h : remove_degenerate_geometry DESIGNBUILDER_TOLERANCE = none) :
    remove_degenerate_step remove_degenerate_geometry units =
      Except.error
        ("Failed to remove degenerate Rooms.\nYour Model units system is: " ++
          units ++ ". Is this correct?") := by
  simp [remove_degenerate_step, h, degenerate_error_message]

/-- Witness for the amended C6 with a failing cleanup on a metric model. -/
theorem remove_degenerate_failure_aborts_witness :
    ((fun _ => none : ℚ → Option Model) DESIGNBUILDER_TOLERANCE = none) ∧
    remove_degenerate_step (fun _ => none) "Meters" =
      Except.error
        ("Failed to remove degenerate Rooms.\nYour Model units system is: " ++
          "Meters" ++ ". Is this correct?") :=
  ⟨rfl, remove_degenerate_failure_aborts (fun _ => none) "Meters" rfl⟩

/-- C7: the translator operates only on a duplicate of the caller's model —
in the heap semantics, translation writes only to the fresh address holding
the duplicate, so the model stored at the caller's address is unchanged
afterwards. -/
theorem translation_leaves_caller_model_unchanged
    (group_by_adjacency : List Room → List (List Room))
    (group_by_story : Model → List (List Room × String))
    (heap : ℕ → Model) (orig fresh : ℕ) (h : fresh ≠ orig) :
    model_to_therm_xml_heap group_by_adjacency group_by_story heap orig fresh orig =
      heap orig := by
  unfold model_to_therm_xml_heap
  rw [if_neg (fun hh => h hh.symm)]

/-- Witness for C7 at a concrete one-model heap. -/
theorem translation_leaves_caller_model_unchanged_witness :
    ((1 : ℕ) ≠ 0) ∧
    model_to_therm_xml_heap (fun _ => []) (fun _ => [])
        (fun _ => ⟨"Meters", [], []⟩) 0 1 0 = ⟨"Meters", [], []⟩ :=
  ⟨one_ne_zero,
    translation_leaves_caller_model_unchanged (fun _ => []) (fun _ => [])
      (fun _ => ⟨"Meters", [], []⟩) 0 1 one_ne_zero⟩

/-- C9: on any lockable value object, after `lock()` a mutator (density on a
material, temperature on a boundary condition) fails with the distinct
immutable-state error — returning no successor state, so the object is
unchanged — and after a subsequent `unlock()` the same mutation succeeds. -/
theorem lock_blocks_and_unlock_restores_mutation (m : SolidMaterial)
    (c : ComprehensiveCondition) (v t : ℚ) (hv : 0 ≤ v) :
    m.lock.set_density v = Except.error MutationError.immutableState ∧
    m.lock.unlock.set_density v = Except.ok { m.lock.unlock with density := some v } ∧
    c.lock.set_temperature t = Except.error MutationError.immutableState ∧
    c.lock.unlock.set_temperature t =
      Except.ok { c.lock.unlock with temperature := t } := by
  refine ⟨?_, ?_, ?_, ?_⟩ <;>
    simp [SolidMaterial.set_density, SolidMaterial.lock, SolidMaterial.unlock,
      ComprehensiveCondition.set_temperature, ComprehensiveCondition.lock,
      ComprehensiveCondition.unlock, hv]

/-- Witness for C9 on the concrete concrete-material and NFRC-condition
values of the repository's lockability tests. -/
theorem lock_blocks_and_unlock_restores_mutation_witness :
    ((0 : ℚ) ≤ 600) ∧
    (SolidMaterial.lock ⟨false, 1/2, some 800⟩).set_density 600 =
      Except.error MutationError.immutableState ∧
    (ComprehensiveCondition.lock ⟨false, -18⟩).unlock.set_temperature 36 =
      Except.ok ⟨false, 36⟩ :=
  ⟨by norm_num,
    (lock_blocks_and_unlock_restores_mutation ⟨false, 1/2, some 800⟩ ⟨false, -18⟩
      600 36 (by norm_num)).1,
    (lock_blocks_and_unlock_restores_mutation ⟨false, 1/2, some 800⟩ ⟨false, -18⟩
      600 36 (by norm_num)).2.2.2⟩

set_option maxRecDepth 8000 in
/-- C8: the serialized document always uses the fixed single-byte
Latin-variant charset — the string produced by the string builder begins
with a declaration naming encoding `ISO-8859-15` (for any serialized body
and any authoring-program comment), `model_to_thmz` writes exactly the
bytes of that string under the iso-8859-15 codec, and that codec is the
Latin-9 table, not UTF-8 (the euro sign encodes to the single byte 164,
not the three UTF-8 bytes 226, 130, 172) and not any platform default. -/
theorem serialized_document_is_iso_8859_15 (body : String)
    (program_name : Option String) :
    XML_DECLARATION.data <+: (model_to_therm_xml body program_name).data ∧
    ("ISO-8859-15".data <:+: XML_DECLARATION.data) ∧
    model_to_thmz body program_name =
      iso_8859_15_encode (model_to_therm_xml body program_name) ∧
    iso_8859_15_encode "€" = some [164] ∧
    some [164] ≠ some [226, 130, 172] := by
  refine ⟨?_, by decide, rfl, by decide, by decide⟩
  exact ⟨("\n" ++ (match program_name with
      | some p => "<!--File generated by " ++ p ++ "-->\n"
      | none => "") ++ body).data, by
    cases program_name <;> simp [model_to_therm_xml, XML_DECLARATION]⟩

/-- C5: the translator turns each story's adjacency grouping into blocks in
discovery order — a story yielding exactly one connected group becomes a
single block named exactly the story name, and a story yielding N > 1
groups becomes N blocks where the group at 0-based discovery index i is
named the story name, a space and the number i + 1 — so the source loop
equals the claim's per-story specification `block_naming_spec`, for any
host-library adjacency grouping and any story partition. -/
theorem group_rooms_to_blocks_naming (gba : List α → List (List α))
    (stories : List (List α × String)) :
    (group_rooms_to_blocks gba stories).1 =
      ((stories.map (fun p => block_naming_spec gba p.1 p.2)).flatten).map Prod.fst ∧
    (group_rooms_to_blocks gba stories).2 =
      ((stories.map (fun p => block_naming_spec gba p.1 p.2)).flatten).map Prod.snd := by
  induction stories with
  | nil => exact ⟨rfl, rfl⟩
  | cons p rest ih =>
    obtain ⟨rs, nm⟩ := p
    have hfst : (Prod.fst ∘ fun p : ℕ × List α =>
        (p.2, nm ++ " " ++ toString (p.1 + 1))) = Prod.snd := rfl
    by_cases h : (gba rs).length = 1 <;>
      simp [group_rooms_to_blocks, block_naming_spec, h, ih.1, ih.2, List.map_map,
        hfst, List.enum_map_snd]

/-- The remap pass rewrites exactly the adjacencies of the emitted
document, in place and in order. -/
lemma all_adjacencies_remap (m : List (String × String)) (blocks : List XmlBlock) :
    all_adjacencies (remap_document m blocks) =
      (all_adjacencies blocks).map (remap_adjacency m) := by
  simp [all_adjacencies, remap_document, remap_block, remap_zone, remap_surface,
    List.flatMap_map, List.map_flatMap, Function.comp]

/-- C1: in the adjacency-remap pass, an adjacency whose stored
`surfaceIndex` is not the sentinel `'-1'` but whose face identifier is not
a key of the face-index map is cleared to `'-1'`/`'-1'` on both attributes;
the pass is a total function (the `KeyError` is caught, so an unresolved
reference never raises or aborts the translation); and no adjacency of the
remapped document holds a stale unmapped identifier — each one ends as the
sentinel or as a face index drawn from the map. -/
theorem remap_clears_unresolved_adjacencies (f_index_map : List (String × String))
    (blocks : List XmlBlock) :
    (∀ adj : XmlAdjacency, adj.surfaceIndex ≠ "-1" →
      f_index_map.lookup adj.surfaceIndex = none →
      (remap_adjacency f_index_map adj).surfaceIndex = "-1" ∧
        (remap_adjacency f_index_map adj).zoneHandle = "-1") ∧
    (∀ adj ∈ all_adjacencies (remap_document f_index_map blocks),
      adj.surfaceIndex = "-1" ∨
        ∃ key, f_index_map.lookup key = some adj.surfaceIndex) := by
  constructor
  · intro adj h1 h2
    rw [remap_adjacency, if_neg h1, h2]
    exact ⟨rfl, rfl⟩
  · intro adj hmem
    rw [all_adjacencies_remap] at hmem
    obtain ⟨a, _, rfl⟩ := List.mem_map.mp hmem
    rw [remap_adjacency]
    by_cases h1 : a.surfaceIndex = "-1"
    · rw [if_pos h1]
      exact Or.inl h1
    · rw [if_neg h1]
      cases h2 : f_index_map.lookup a.surfaceIndex with
      | none => exact Or.inl rfl
      | some face_i => exact Or.inr ⟨a.surfaceIndex, h2⟩

/-- Witness for C1: an unresolved reference `'srf_b'` outside a one-entry
map is cleared on both attributes, and a one-adjacency document ends with
no stale identifier. -/
theorem remap_clears_unresolved_adjacencies_witness :
    ((⟨"srf_b", "3"⟩ : XmlAdjacency).surfaceIndex ≠ "-1") ∧
    ([("srf_a", "7")].lookup "srf_b" = none) ∧
    (remap_adjacency [("srf_a", "7")] ⟨"srf_b", "3"⟩).surfaceIndex = "-1" ∧
    (remap_adjacency [("srf_a", "7")] ⟨"srf_b", "3"⟩).zoneHandle = "-1" ∧
    ((⟨"-1", "-1"⟩ : XmlAdjacency) ∈
        all_adjacencies (remap_document [("srf_a", "7")] [⟨[⟨[⟨[⟨"srf_b", "3"⟩]⟩]⟩]⟩]) →
      (⟨"-1", "-1"⟩ : XmlAdjacency).surfaceIndex = "-1" ∨
        ∃ key, [("srf_a", "7")].lookup key = some "-1") := by
  refine ⟨by decide, by decide, ?_, ?_, ?_⟩
  · exact ((remap_clears_unresolved_adjacencies [("srf_a", "7")] []).1
      ⟨"srf_b", "3"⟩ (by decide) (by decide)).1
  · exact ((remap_clears_unresolved_adjacencies [("srf_a", "7")] []).1
      ⟨"srf_b", "3"⟩ (by decide) (by decide)).2
  · exact (remap_clears_unresolved_adjacencies [("srf_a", "7")]
      [⟨[⟨[⟨[⟨"srf_b", "3"⟩]⟩]⟩]⟩]).2 ⟨"-1", "-1"⟩

/-- Splitting a `List.range'` at an intermediate count. -/
lemma range'_split (s m n : ℕ) :
    List.range' s (m + n) = List.range' s m ++ List.range' (s + m) n := by
  rw [Nat.add_comm m n]
  have h := List.range'_append s m n 1
  rw [one_mul] at h
  exact h.symm

/-- Face renumbering assigns the consecutive counter values starting at the
given counter and leaves the counter advanced by the face count. -/
lemma assign_face_ids_spec (fs : List Face) (c : ℕ) :
    (assign_face_ids fs c).1.map Face.identifier =
      (List.range' c fs.length).map toString ∧
    (assign_face_ids fs c).2 = c + fs.length := by
  induction fs generalizing c with
  | nil => simp [assign_face_ids]
  | cons f rest ih =>
    refine ⟨?_, ?_⟩
    · rw [List.length_cons, List.range'_succ]
      simp [assign_face_ids, (ih (c + 1)).1]
    · simp [assign_face_ids, (ih (c + 1)).2]
      omega

/-- Room renumbering assigns the consecutive counter values — room, its
faces, then the remaining rooms — and advances the counter by the number
of rooms and faces. -/
lemma assign_room_ids_spec (rs : List Room) (c : ℕ) :
    ((assign_room_ids rs c).1.map
        (fun r => r.identifier :: r.faces.map Face.identifier)).flatten =
      (List.range' c (rs.length + (rs.map (fun r => r.faces.length)).sum)).map toString ∧
    (assign_room_ids rs c).2 = c + (rs.length + (rs.map (fun r => r.faces.length)).sum) := by
  induction rs generalizing c with
  | nil => simp [assign_room_ids]
  | cons r rest ih =>
    have hcount : (r :: rest).length + ((r :: rest).map (fun r => r.faces.length)).sum =
        (1 + r.faces.length) + (rest.length + (rest.map (fun r => r.faces.length)).sum) := by
      simp
      omega
    refine ⟨?_, ?_⟩
    · rw [hcount, range'_split, range'_split]
      simp only [assign_room_ids, List.map_cons, List.flatten_cons, List.map_append]
      rw [(assign_face_ids_spec r.faces (c + 1)).1,
        (ih ((assign_face_ids r.faces (c + 1)).2)).1,
        (assign_face_ids_spec r.faces (c + 1)).2]
      have h1 : List.range' c 1 = [c] := rfl
      rw [h1]
      simp
      congr 2
      omega
    · simp only [assign_room_ids]
      rw [(ih ((assign_face_ids r.faces (c + 1)).2)).2,
        (assign_face_ids_spec r.faces (c + 1)).2]
      simp
      omega

/-- Shade renumbering assigns the consecutive counter values starting at
the given counter. -/
lemma assign_shade_ids_spec (ss : List Shade) (c : ℕ) :
    (assign_shade_ids ss c).1.map Shade.identifier =
      (List.range' c ss.length).map toString ∧
    (assign_shade_ids ss c).2 = c + ss.length := by
  induction ss generalizing c with
  | nil => simp [assign_shade_ids]
  | cons s rest ih =>
    refine ⟨?_, ?_⟩
    · rw [List.length_cons, List.range'_succ]
      simp [assign_shade_ids, (ih (c + 1)).1]
    · simp [assign_shade_ids, (ih (c + 1)).2]
      omega

/-- C4: after grouping into blocks, the handle counter is initialized to
(number of blocks) + 2 before any identifier is reassigned, and every
room, face and shade identifier of the duplicated model is replaced by an
integer drawn from that monotonically increasing counter — the assigned
identifiers are exactly the consecutive integers starting at
n_blocks + 2, so no geometric element receives a handle below
n_blocks + 2. -/
theorem assign_handles_spec (m : Model) (n_blocks : ℕ) :
    model_ids (assign_handles m n_blocks).1 =
      (List.range' (n_blocks + 2) (model_id_count m)).map toString ∧
    ∀ s ∈ model_ids (assign_handles m n_blocks).1,
      ∃ k, s = toString k ∧ n_blocks + 2 ≤ k := by
  have hmain : model_ids (assign_handles m n_blocks).1 =
      (List.range' (n_blocks + 2) (model_id_count m)).map toString := by
    simp only [assign_handles, reset_ids_to_integers, model_ids, model_id_count]
    rw [(assign_room_ids_spec m.rooms (n_blocks + 2)).1,
      (assign_shade_ids_spec m.shades ((assign_room_ids m.rooms (n_blocks + 2)).2)).1,
      (assign_room_ids_spec m.rooms (n_blocks + 2)).2,
      ← List.map_append, ← range'_split]
  refine ⟨hmain, ?_⟩
  intro s hs
  rw [hmain] at hs
  obtain ⟨k, hk, rfl⟩ := List.mem_map.mp hs
  exact ⟨k, rfl, (List.mem_range'_1.mp hk).1⟩

/-- Witness for C4 on a one-room, one-face, one-shade model grouped into a
single block: the assigned identifiers are 3, 4, 5 and each is at least
1 + 2. -/
theorem assign_handles_spec_witness :
    ("3" ∈ model_ids
      (assign_handles ⟨"Meters", [⟨"r1", [⟨"f1", 90, FaceType.wall⟩]⟩], [⟨"s1"⟩]⟩ 1).1) ∧
    ∃ k, "3" = toString k ∧ 1 + 2 ≤ k :=
  ⟨by decide,
    (assign_handles_spec ⟨"Meters", [⟨"r1", [⟨"f1", 90, FaceType.wall⟩]⟩], [⟨"s1"⟩]⟩ 1).2
      "3" (by decide)⟩

/-- The valid `ModelExposure` built from model type 'Opaque Wall' with the
explicit cross section 'Header', gravity orientation 'Down' and wind
orientation 0. -/
def opaque_wall_exposure : ModelExposure :=
  ⟨"Opaque Wall", some "Header", some "Down", 0⟩

/-- The valid `ModelExposure` built like `opaque_wall_exposure` but for
model type 'Opaque Roof'. -/
def opaque_roof_exposure : ModelExposure :=
  ⟨"Opaque Roof", some "Header", some "Down", 0⟩

/-- C2 fails on the code: for the valid 'Opaque Wall' exposure, decoding
the XML produced by encoding it does not return an equal object — it
raises, because `to_therm_xml` writes the `Assembly` text `'Walls'` while
`from_therm_xml` rebuilds the model type as `'Opaque ' + assembly`, and
the resulting `'Opaque Walls'` is rejected by the constructor's own
`model_type` validation.  The identically-shaped 'Opaque Roof' exposure
(assembly text `'Roof'`) round-trips exactly, which shows the plural
`'Walls'` is the slip and the spec's `decode(encode(x)) == x` contract is
the intent. -/
theorem opaque_wall_roundtrip_raises :
    ModelExposure.init (some "Opaque Wall") (some "Header") (some "Down") 0 =
      Except.ok opaque_wall_exposure ∧
    from_therm_xml (to_therm_xml opaque_wall_exposure) =
      Except.error (model_type_error_msg "Opaque Walls") ∧
    ModelExposure.init (some "Opaque Roof") (some "Header") (some "Down") 0 =
      Except.ok opaque_roof_exposure ∧
    from_therm_xml (to_therm_xml opaque_roof_exposure) =
      Except.ok opaque_roof_exposure :=
  ⟨rfl, rfl, rfl, rfl⟩

/-- The section lists the claim permits per model type: 'Window' only the
Window sections, 'Opaque Wall' and 'Opaque Roof' only the Opaque sections,
'Other' only the Other sections. -/
def permitted_sections (model_type : String) : List String :=
  if model_type = "Window" then WINDOW_SECTIONS
  else if model_type = "Opaque Wall" ∨ model_type = "Opaque Roof" then OPAQUE_SECTIONS
  else if model_type = "Other" then OTHER_SECTIONS
  else []

/-- On the four supported model types, the compatibility check's branch
list coincides with the claim's permitted list. -/
lemma check_sections_eq_permitted :
    ∀ mt ∈ MODEL_TYPES, check_sections mt = permitted_sections mt := by decide

/-- A canonicalized key comes from the key list it was matched against. -/
lemma matchKey_mem {keys : List String} {v k : String}
    (h : matchKey keys v = some k) : k ∈ keys :=
  List.mem_of_find?_eq_some h

/-- The compatibility check succeeds exactly on the unchanged object with
its effective cross section in the branch list. -/
lemma check_ok_iff (x y : ModelExposure) :
    check_model_and_cross_section x = Except.ok y ↔
      y = x ∧ (check_sections x._model_type).contains (cross_section_type x) = true := by
  unfold check_model_and_cross_section
  by_cases h : (check_sections x._model_type).contains (cross_section_type x) = true
  · rw [if_pos h]
    constructor
    · intro he
      cases he
      exact ⟨rfl, h⟩
    · rintro ⟨rfl, _⟩
      rfl
  · rw [if_neg h]
    constructor
    · intro he
      cases he
    · rintro ⟨rfl, hc⟩
      exact absurd hc h

/-- The compatibility check fails on an effective cross section outside
the branch list, with the incompatibility message. -/
lemma check_error_of_not_contains (x : ModelExposure)
    (h : (check_sections x._model_type).contains (cross_section_type x) = false) :
    check_model_and_cross_section x =
      Except.error (incompatible_section_msg x (check_sections x._model_type)) := by
  simp [check_model_and_cross_section, h]
  simpa using h

/-- The effective cross section depends only on the model-type and
cross-section fields. -/
lemma cross_section_congr (x y : ModelExposure) (h1 : x._model_type = y._model_type)
    (h2 : x._cross_section_type = y._cross_section_type) :
    cross_section_type x = cross_section_type y := by
  unfold cross_section_type
  rw [h1, h2]

/-- A successful `model_type` assignment leaves a supported model type,
does not touch the stored cross section, and has passed the compatibility
check. -/
lemma set_model_type_ok (s : ModelExposure) (v : Option String) (x : ModelExposure)
    (h : set_model_type s v = Except.ok x) :
    x._model_type ∈ MODEL_TYPES ∧ x._cross_section_type = s._cross_section_type ∧
      (check_sections x._model_type).contains (cross_section_type x) = true := by
  cases v with
  | none =>
    simp only [set_model_type] at h
    obtain ⟨rfl, hc⟩ := (check_ok_iff _ _).mp h
    refine ⟨?_, rfl, hc⟩
    show "Other" ∈ MODEL_TYPES
    decide
  | some v =>
    simp only [set_model_type] at h
    cases hk : matchKey MODEL_TYPES v with
    | none => rw [hk] at h; exact absurd h (by simp)
    | some key =>
      rw [hk] at h
      obtain ⟨rfl, hc⟩ := (check_ok_iff _ _).mp h
      exact ⟨matchKey_mem hk, rfl, hc⟩

/-- A successful `cross_section_type` assignment leaves the model type
untouched and has passed the compatibility check. -/
lemma set_cross_section_type_ok (s : ModelExposure) (v : Option String)
    (x : ModelExposure) (h : set_cross_section_type s v = Except.ok x) :
    x._model_type = s._model_type ∧
      (check_sections x._model_type).contains (cross_section_type x) = true := by
  cases v with
  | none =>
    simp only [set_cross_section_type] at h
    obtain ⟨rfl, hc⟩ := (check_ok_iff _ _).mp h
    exact ⟨rfl, hc⟩
  | some v =>
    simp only [set_cross_section_type] at h
    cases hk : matchKey ALL_SECTIONS v with
    | none => rw [hk] at h; exact absurd h (by simp)
    | some key =>
      rw [hk] at h
      obtain ⟨rfl, hc⟩ := (check_ok_iff _ _).mp h
      exact ⟨rfl, hc⟩

/-- The `gravity_orientation` setter touches neither the model type nor the
cross section. -/
lemma set_gravity_orientation_ok (s : ModelExposure) (v : Option String)
    (x : ModelExposure) (h : set_gravity_orientation s v = Except.ok x) :
    x._model_type = s._model_type ∧ x._cross_section_type = s._cross_section_type := by
  cases v with
  | none =>
    simp only [set_gravity_orientation] at h
    cases h
    exact ⟨rfl, rfl⟩
  | some v =>
    simp only [set_gravity_orientation] at h
    cases hk : matchKey GRAVITY_ORIENTATIONS v with
    | none => rw [hk] at h; exact absurd h (by simp)
    | some key =>
      rw [hk] at h
      cases h
      exact ⟨rfl, rfl⟩

/-- The `wind_orientation` setter touches neither the model type nor the
cross section. -/
lemma set_wind_orientation_ok (s : ModelExposure) (v : ℚ) (x : ModelExposure)
    (h : set_wind_orientation s v = Except.ok x) :
    x._model_type = s._model_type ∧ x._cross_section_type = s._cross_section_type := by
  simp only [set_wind_orientation, float_in_range] at h
  by_cases hr : (0 : ℚ) ≤ v ∧ v ≤ 360
  · rw [if_pos hr] at h
    cases h
    exact ⟨rfl, rfl⟩
  · rw [if_neg hr] at h
    exact absurd h (by simp [Except.map])

/-- A non-raising construction establishes the cross-section invariant. -/
lemma init_ok (mt cs g : Option String) (w : ℚ) (x : ModelExposure)
    (h : ModelExposure.init mt cs g w = Except.ok x) :
    x._model_type ∈ MODEL_TYPES ∧
      (check_sections x._model_type).contains (cross_section_type x) = true := by
  simp only [ModelExposure.init, bind, Except.bind] at h
  cases h1 : set_model_type ⟨"", none, none, 0⟩ mt with
  | error e => rw [h1] at h; exact Except.noConfusion h
  | ok x1 =>
    rw [h1] at h
    dsimp only at h
    cases h2 : set_cross_section_type x1 cs with
    | error e => rw [h2] at h; exact Except.noConfusion h
    | ok x2 =>
      rw [h2] at h
      dsimp only at h
      cases h3 : set_gravity_orientation x2 g with
      | error e => rw [h3] at h; exact Except.noConfusion h
      | ok x3 =>
        rw [h3] at h
        dsimp only at h
        have h4 : set_wind_orientation x3 w = Except.ok x := h
        obtain ⟨hm1, _, _⟩ := set_model_type_ok _ _ _ h1
        obtain ⟨he2, hc2⟩ := set_cross_section_type_ok _ _ _ h2
        obtain ⟨he3m, he3c⟩ := set_gravity_orientation_ok _ _ _ h3
        obtain ⟨he4m, he4c⟩ := set_wind_orientation_ok _ _ _ h4
        have hmodel : x._model_type = x2._model_type := he4m.trans he3m
        have hcross : cross_section_type x = cross_section_type x2 :=
          cross_section_congr _ _ hmodel (he4c.trans he3c)
        rw [hmodel, hcross]
        exact ⟨he2 ▸ hm1, hc2⟩

/-- C10: after any successful (non-raising) construction or assignment to
`model_type` or `cross_section_type`, the effective cross section (the
explicit value, or the per-model-type default when none was set) lies in
the section list permitted for the current model type — 'Other' permits
only the Other sections, 'Window' only the Window sections, and
'Opaque Wall'/'Opaque Roof' only the Opaque sections; and assigning an
unknown model type, cross section or gravity orientation, or a
known-but-incompatible combination, raises an error. -/
theorem model_exposure_section_invariant :
    (∀ mt cs g w x, ModelExposure.init mt cs g w = Except.ok x →
      (permitted_sections x._model_type).contains (cross_section_type x) = true) ∧
    (∀ s v x, set_model_type s v = Except.ok x →
      (permitted_sections x._model_type).contains (cross_section_type x) = true) ∧
    (∀ s v x, s._model_type ∈ MODEL_TYPES → set_cross_section_type s v = Except.ok x →
      (permitted_sections x._model_type).contains (cross_section_type x) = true) ∧
    (∀ s v, matchKey MODEL_TYPES v = none →
      ∃ e, set_model_type s (some v) = Except.error e) ∧
    (∀ s v, matchKey ALL_SECTIONS v = none →
      ∃ e, set_cross_section_type s (some v) = Except.error e) ∧
    (∀ s v, matchKey GRAVITY_ORIENTATIONS v = none →
      ∃ e, set_gravity_orientation s (some v) = Except.error e) ∧
    (∀ s v key, s._model_type ∈ MODEL_TYPES → matchKey ALL_SECTIONS v = some key →
      (permitted_sections s._model_type).contains key = false →
      ∃ e, set_cross_section_type s (some v) = Except.error e) ∧
    (∀ s v key c, matchKey MODEL_TYPES v = some key → s._cross_section_type = some c →
      (permitted_sections key).contains c = false →
      ∃ e, set_model_type s (some v) = Except.error e) := by
  refine ⟨?_, ?_, ?_, ?_, ?_, ?_, ?_, ?_⟩
  · intro mt cs g w x h
    obtain ⟨hmem, hc⟩ := init_ok mt cs g w x h
    rwa [check_sections_eq_permitted _ hmem] at hc
  · intro s v x h
    obtain ⟨hmem, _, hc⟩ := set_model_type_ok s v x h
    rwa [check_sections_eq_permitted _ hmem] at hc
  · intro s v x hmem h
    obtain ⟨heq, hc⟩ := set_cross_section_type_ok s v x h
    rw [heq] at hc ⊢
    rwa [check_sections_eq_permitted _ hmem] at hc
  · intro s v h
    simp only [set_model_type]
    rw [h]
    exact ⟨_, rfl⟩
  · intro s v h
    simp only [set_cross_section_type]
    rw [h]
    exact ⟨_, rfl⟩
  · intro s v h
    simp only [set_gravity_orientation]
    rw [h]
    exact ⟨_, rfl⟩
  · intro s v key hmem hk hperm
    have hmain : check_model_and_cross_section { s with _cross_section_type := some key } =
        Except.error (incompatible_section_msg { s with _cross_section_type := some key }
          (check_sections ({ s with _cross_section_type := some key })._model_type)) := by
      apply check_error_of_not_contains
      have h1 : cross_section_type { s with _cross_section_type := some key } = key := rfl
      rw [h1]
      dsimp only
      rw [check_sections_eq_permitted _ hmem, hperm]
    simp only [set_cross_section_type]
    rw [hk]
    exact ⟨_, hmain⟩
  · intro s v key c hk hc hperm
    have hmain : check_model_and_cross_section { s with _model_type := key } =
        Except.error (incompatible_section_msg { s with _model_type := key }
          (check_sections ({ s with _model_type := key })._model_type)) := by
      apply check_error_of_not_contains
      have h1 : cross_section_type { s with _model_type := key } = c := by
        unfold cross_section_type
        dsimp only
        rw [hc]
      rw [h1]
      dsimp only
      rw [check_sections_eq_permitted _ (matchKey_mem hk), hperm]
    simp only [set_model_type]
    rw [hk]
    exact ⟨_, hmain⟩

/-- Witness for C10: a constructed Window/Jamb exposure satisfies the
invariant; an unknown gravity orientation and a Window-incompatible opaque
cross section both raise. -/
theorem model_exposure_section_invariant_witness :
    ((permitted_sections
        (⟨"Window", some "Jamb", some "Down", 0⟩ : ModelExposure)._model_type).contains
      (cross_section_type ⟨"Window", some "Jamb", some "Down", 0⟩) = true) ∧
    (∃ e, set_gravity_orientation ⟨"Window", none, none, 0⟩ (some "Sideways") =
      Except.error e) ∧
    (∃ e, set_cross_section_type ⟨"Window", none, none, 0⟩ (some "Header") =
      Except.error e) :=
  ⟨model_exposure_section_invariant.1 (some "Window") (some "Jamb") (some "Down") 0
      ⟨"Window", some "Jamb", some "Down", 0⟩ rfl,
    model_exposure_section_invariant.2.2.2.2.2.1 ⟨"Window", none, none, 0⟩
      "Sideways" rfl,
    model_exposure_section_invariant.2.2.2.2.2.2.1 ⟨"Window", none, none, 0⟩
      "Header" "Header" (by decide) rfl rfl⟩
